import Mathlib

/-!
# Verification of the EvolutionSimSite core

Shallow embedding of the two core subsystems of the repository:

* the grid diffusion engine (`src/src/engine/TemperatureSystem.cpp`), and
* the binary serialization codec plus save coordinator
  (`src/src/engine/serialization/Serialization.cpp`, `SaveSystem.hpp/cpp`),

together with theorems settling the specification claims about them.

Modelling conventions:

* C++ `double` values are embedded as elements of a linear ordered field
  (`ℚ` for the executable diffusion claims, `ℝ` where the source uses
  `std::sqrt`); the codec never interprets `double`s — it `memcpy`s their
  64-bit patterns — so on the codec side a `double` is modelled as its
  bit pattern, a natural number below `2 ^ 64`.
* C++ `uint8_t`/`uint16_t`/`uint32_t`/`uint64_t` are `ℕ` with explicit
  `% 2 ^ w` where overflow matters; `int` is `ℤ`, and the
  implementation-defined `uint32_t → int` conversion is modelled by
  `toInt32` (two's-complement wraparound, as on every platform the
  source targets).
* the `std::vector<std::vector<Cell>>` grid, which by construction always
  has exactly `height` rows of `width` cells, is modelled as a total
  function `ℕ → ℕ → Cell` indexed `[y][x]`; all claims only ever look at
  indices inside `[0,width) × [0,height)`.
-/

namespace EvolutionSim

/-- Two's-complement conversion of an unsigned 32-bit value (given as a
natural number) to a signed 32-bit `int`, as performed implicitly by the
source when a `uint32_t` is passed to `isValidPosition(int, int)`. -/
def toInt32 (n : ℕ) : ℤ :=
  if n % 2 ^ 32 < 2 ^ 31 then ((n % 2 ^ 32 : ℕ) : ℤ)
  else ((n % 2 ^ 32 : ℕ) : ℤ) - 2 ^ 32

/-- One grid cell: `TemperatureSystem::Cell` from `TemperatureSystem.hpp`. -/
structure Cell (F : Type) where
  temperature : F
  nextTemperature : F
  lastUpdate : ℕ
  deriving Repr

/-- The grid: `TemperatureSystem::Grid` from `TemperatureSystem.hpp`;
`cells y x` is the source's `cells[y][x]`. -/
structure Grid (F : Type) where
  cells : ℕ → ℕ → Cell F
  width : ℕ
  height : ℕ
  ambientTemperature : F

section GridOps

variable {F : Type}

/-- Diffusion rate constant `TemperatureSystem::DIFFUSION_RATE = 0.05`. -/
def DIFFUSION_RATE [LinearOrderedField F] : F := 0.05

/-- Bounds check `TemperatureSystem::isValidPosition(int x, int y)`. -/
def isValidPosition (g : Grid F) (x y : ℤ) : Bool :=
  decide (0 ≤ x) && decide (0 ≤ y) &&
    decide (x < toInt32 g.width) && decide (y < toInt32 g.height)

/-- The read `TemperatureSystem::getTemperature(uint32_t x, uint32_t y)`:
out-of-range coordinates fall back to the ambient temperature. -/
def getTemperature (g : Grid F) (x y : ℕ) : F :=
  if isValidPosition g (toInt32 x) (toInt32 y) then (g.cells y x).temperature
  else g.ambientTemperature

/-- The write `TemperatureSystem::setTemperature(uint32_t, uint32_t, double)`:
no-op when out of range, otherwise sets both `temperature` and
`nextTemperature` of the addressed cell. -/
def setTemperature (g : Grid F) (x y : ℕ) (temp : F) : Grid F :=
  if isValidPosition g (toInt32 x) (toInt32 y) then
    { g with cells := fun y0 x0 =>
        if y0 = y ∧ x0 = x then
          { g.cells y0 x0 with temperature := temp, nextTemperature := temp }
        else g.cells y0 x0 }
  else g

/-- Neighbor offsets, in the order of the source's `dirs` array:
`{{0, 1}, {1, 0}, {0, -1}, {-1, 0}}` with `dir[0]` added to `x` and
`dir[1]` added to `y`. -/
def dirs : List (ℤ × ℤ) := [(0, 1), (1, 0), (0, -1), (-1, 0)]

/-- Contribution of one candidate neighbor `(nx, ny)` to the gather loop of
`TemperatureSystem::diffuseTemperature`: its committed temperature when the
position is in bounds, nothing otherwise. -/
def neighborContrib (g : Grid F) (nx ny : ℤ) : List F :=
  if isValidPosition g nx ny then [(g.cells ny.toNat nx.toNat).temperature] else []

/-- Temperatures of the in-bounds axis-aligned neighbors of cell `(x, y)`,
gathered exactly as the inner loop of `TemperatureSystem::diffuseTemperature`
does: the fixed four-iteration loop over `dirs` is unrolled here in loop
order, with `nx = x + dir[0]`, `ny = y + dir[1]`; only the committed
`temperature` field is read. -/
def neighborTemps (g : Grid F) (x y : ℕ) : List F :=
  neighborContrib g ((x : ℤ) + 0) ((y : ℤ) + 1) ++
    neighborContrib g ((x : ℤ) + 1) ((y : ℤ) + 0) ++
    neighborContrib g ((x : ℤ) + 0) ((y : ℤ) + (-1)) ++
    neighborContrib g ((x : ℤ) + (-1)) ((y : ℤ) + 0)

/-- Compute phase `TemperatureSystem::diffuseTemperature`: every cell's
`nextTemperature` is set from the committed temperatures; with at least
one in-bounds neighbor the cell moves a `DIFFUSION_RATE` fraction toward
the mean of its neighbors, otherwise it keeps its temperature. -/
def diffuseTemperature [LinearOrderedField F] (g : Grid F) : Grid F :=
  { g with cells := fun y x =>
      let ns := neighborTemps g x y
      let c := g.cells y x
      if 0 < ns.length then
        { c with nextTemperature :=
            c.temperature + (ns.sum / (ns.length : F) - c.temperature) * DIFFUSION_RATE }
      else
        { c with nextTemperature := c.temperature } }

/-- One step `TemperatureSystem::update(uint64_t deltaTime)`: compute phase
(`diffuseTemperature`) followed by the commit phase that copies
`nextTemperature` into `temperature` and stamps `lastUpdate`. -/
def update [LinearOrderedField F] (g : Grid F) (deltaTime : ℕ) : Grid F :=
  let g2 := diffuseTemperature g
  { g2 with cells := fun y x =>
      let c := g2.cells y x
      { c with temperature := c.nextTemperature, lastUpdate := deltaTime } }

/-- The neighbor temperatures of cell `(x, y)` as the specification words
them: the temperatures of the up-to-4 axis-aligned neighbors that lie
within grid bounds, with natural-number bound conditions (listed in the
same order as the source's direction array, which the mean does not
depend on). -/
def specNeighborTemps (g : Grid F) (x y : ℕ) : List F :=
  (if y + 1 < g.height then [(g.cells (y + 1) x).temperature] else []) ++
    (if x + 1 < g.width then [(g.cells y (x + 1)).temperature] else []) ++
    (if 0 < y then [(g.cells (y - 1) x).temperature] else []) ++
    (if 0 < x then [(g.cells y (x - 1)).temperature] else [])

/-- Index set of the grid's cells, as `(y, x)` pairs. -/
def gridIndices (g : Grid F) : Finset (ℕ × ℕ) :=
  Finset.range g.height ×ˢ Finset.range g.width

/-- The maximum cell temperature of a (nonempty) grid. -/
def maxTemp [LinearOrderedField F] (g : Grid F) (H : (gridIndices g).Nonempty) : F :=
  (gridIndices g).sup' H fun p => (g.cells p.1 p.2).temperature

/-- The minimum cell temperature of a (nonempty) grid. -/
def minTemp [LinearOrderedField F] (g : Grid F) (H : (gridIndices g).Nonempty) : F :=
  (gridIndices g).inf' H fun p => (g.cells p.1 p.2).temperature

end GridOps

/-! ## Binary codec (`Serialization.hpp` / `Serialization.cpp`)

Bytes are natural numbers below `256`; a buffer is a `List ℕ`.  The writer
is modelled by append-only functions on the accumulated buffer, mirroring
`BinaryWriter`'s `push_back`/`insert`-at-end calls.  `WriteFloat` and
`WriteDouble` `memcpy` the IEEE-754 bit pattern into an unsigned integer of
the same width; the codec never interprets those bits, so a `float`/`double`
is handled on the codec side as its bit pattern (a natural number). -/

/-- Magic constant `SERIALIZATION_MAGIC = 0x45564F53`. -/
def SERIALIZATION_MAGIC : ℕ := 0x45564F53

/-- Version constant `CURRENT_VERSION = 1`. -/
def CURRENT_VERSION : ℕ := 1

/-- Writer primitive `BinaryWriter::WriteUint8`. -/
def WriteUint8 (buf : List ℕ) (value : ℕ) : List ℕ :=
  buf ++ [value % 256]

/-- Writer primitive `BinaryWriter::WriteUint16`: low byte first. -/
def WriteUint16 (buf : List ℕ) (value : ℕ) : List ℕ :=
  buf ++ [value % 256, value / 2 ^ 8 % 256]

/-- Writer primitive `BinaryWriter::WriteUint32`: 4 bytes, low byte first. -/
def WriteUint32 (buf : List ℕ) (value : ℕ) : List ℕ :=
  buf ++ [value % 256, value / 2 ^ 8 % 256, value / 2 ^ 16 % 256, value / 2 ^ 24 % 256]

/-- Writer primitive `BinaryWriter::WriteUint64`: 8 bytes, low byte first. -/
def WriteUint64 (buf : List ℕ) (value : ℕ) : List ℕ :=
  buf ++ (List.range 8).map fun i => value / 2 ^ (8 * i) % 256

/-- Writer primitive `BinaryWriter::WriteFloat`: the `float`'s bit pattern
(already a natural number here) written through `WriteUint32`. -/
def WriteFloat (buf : List ℕ) (pattern : ℕ) : List ℕ :=
  WriteUint32 buf pattern

/-- Writer primitive `BinaryWriter::WriteDouble`: the `double`'s bit pattern
written through `WriteUint64`. -/
def WriteDouble (buf : List ℕ) (pattern : ℕ) : List ℕ :=
  WriteUint64 buf pattern

/-- Writer primitive `BinaryWriter::WriteString`: `uint32` byte-length
prefix followed by the raw bytes. -/
def WriteString (buf : List ℕ) (s : List ℕ) : List ℕ :=
  WriteUint32 buf s.length ++ s

/-- Writer primitive `BinaryWriter::WriteBytes`: raw bytes, no framing. -/
def WriteBytes (buf : List ℕ) (bytes : List ℕ) : List ℕ :=
  buf ++ bytes

/-- Error kinds thrown by the reader: `std::out_of_range` for structural
overruns and `std::runtime_error` for format/version failures, each with
its `what()` message. -/
inductive SerError where
  | outOfRange (msg : String)
  | runtimeError (msg : String)
  deriving Repr, DecidableEq

/-- The `what()` message of an error. -/
def SerError.what : SerError → String
  | .outOfRange msg => msg
  | .runtimeError msg => msg

/-- Reader state `BinaryReader`: an immutable byte buffer (whose length is
the `m_size` the constructor receives) plus the cursor `m_position`. -/
structure BinaryReader where
  data : List ℕ
  pos : ℕ
  deriving Repr, DecidableEq

/-- Little-endian decoding of a byte list, the accumulated value of the
reader's `value |= byte << (i * 8)` loop (for bytes below `256` the
bitwise-or is plain addition). -/
def decodeLE : List ℕ → ℕ
  | [] => 0
  | b :: bs => b + 2 ^ 8 * decodeLE bs

/-- Reader primitive `BinaryReader::ReadUint8`: bounds-check, then read one
byte and advance.  On failure the exception carries the reader unchanged. -/
def ReadUint8 (r : BinaryReader) : Except SerError ℕ × BinaryReader :=
  if r.pos + 1 > r.data.length then (.error (.outOfRange "Read past end of buffer"), r)
  else (.ok (decodeLE ((r.data.drop r.pos).take 1)), { r with pos := r.pos + 1 })

/-- Reader primitive `BinaryReader::ReadUint16`. -/
def ReadUint16 (r : BinaryReader) : Except SerError ℕ × BinaryReader :=
  if r.pos + 2 > r.data.length then (.error (.outOfRange "Read past end of buffer"), r)
  else (.ok (decodeLE ((r.data.drop r.pos).take 2)), { r with pos := r.pos + 2 })

/-- Reader primitive `BinaryReader::ReadUint32`. -/
def ReadUint32 (r : BinaryReader) : Except SerError ℕ × BinaryReader :=
  if r.pos + 4 > r.data.length then (.error (.outOfRange "Read past end of buffer"), r)
  else (.ok (decodeLE ((r.data.drop r.pos).take 4)), { r with pos := r.pos + 4 })

/-- Reader primitive `BinaryReader::ReadUint64`. -/
def ReadUint64 (r : BinaryReader) : Except SerError ℕ × BinaryReader :=
  if r.pos + 8 > r.data.length then (.error (.outOfRange "Read past end of buffer"), r)
  else (.ok (decodeLE ((r.data.drop r.pos).take 8)), { r with pos := r.pos + 8 })

/-- Reader primitive `BinaryReader::ReadFloat`: `ReadUint32` plus a
`memcpy` reinterpretation, which is the identity on bit patterns. -/
def ReadFloat (r : BinaryReader) : Except SerError ℕ × BinaryReader :=
  ReadUint32 r

/-- Reader primitive `BinaryReader::ReadDouble`: `ReadUint64` plus a
`memcpy` reinterpretation, the identity on bit patterns. -/
def ReadDouble (r : BinaryReader) : Except SerError ℕ × BinaryReader :=
  ReadUint64 r

/-- Reader primitive `BinaryReader::ReadBool`: `ReadUint8() != 0`. -/
def ReadBool (r : BinaryReader) : Except SerError Bool × BinaryReader :=
  match ReadUint8 r with
  | (.ok v, r1) => (.ok (decide (v ≠ 0)), r1)
  | (.error e, r1) => (.error e, r1)

/-- Reader primitive `BinaryReader::ReadString`: a `uint32` length prefix,
then a check that the declared length fits in the remaining buffer, then
the raw bytes.  When the length check fails the cursor has already moved
past the prefix. -/
def ReadString (r : BinaryReader) : Except SerError (List ℕ) × BinaryReader :=
  match ReadUint32 r with
  | (.error e, r1) => (.error e, r1)
  | (.ok len, r1) =>
    if r1.pos + len > r1.data.length then
      (.error (.outOfRange "String length exceeds buffer size"), r1)
    else (.ok ((r1.data.drop r1.pos).take len), { r1 with pos := r1.pos + len })

/-- Reader primitive `BinaryReader::ReadBytes`: `size` raw bytes. -/
def ReadBytes (r : BinaryReader) (size : ℕ) : Except SerError (List ℕ) × BinaryReader :=
  if r.pos + size > r.data.length then (.error (.outOfRange "Read past end of buffer"), r)
  else (.ok ((r.data.drop r.pos).take size), { r with pos := r.pos + size })

/-- Envelope check `BinaryReader::ValidateMagic`: reads a `uint32` (thereby
advancing the cursor) and compares it with `SERIALIZATION_MAGIC`. -/
def ValidateMagic (r : BinaryReader) : Except SerError Unit × BinaryReader :=
  match ReadUint32 r with
  | (.error e, r1) => (.error e, r1)
  | (.ok magic, r1) =>
    if magic ≠ SERIALIZATION_MAGIC then (.error (.runtimeError "Invalid file format"), r1)
    else (.ok (), r1)

/-- Envelope check `BinaryReader::CheckVersion`: a `const` member — it
peeks at the two bytes at the cursor through a little-endian 16-bit load
and never advances `m_position`. -/
def CheckVersion (r : BinaryReader) : Except SerError Unit × BinaryReader :=
  if r.pos + 2 > r.data.length then (.error (.outOfRange "Cannot read version"), r)
  else if decodeLE ((r.data.drop r.pos).take 2) > CURRENT_VERSION then
    (.error (.runtimeError "Incompatible save version"), r)
  else (.ok (), r)

/-- Monad for sequencing reader calls: state-passing over the reader with
exception propagation.  After a throw the partially advanced reader is no
longer observable, matching C++ exception propagation out of
`Deserialize`. -/
abbrev RM (α : Type) : Type := StateT BinaryReader (Except SerError) α

/-- Lift a primitive read into the sequencing monad. -/
def liftR {α : Type} (f : BinaryReader → Except SerError α × BinaryReader) : RM α :=
  fun r =>
    match f r with
    | (.ok a, r1) => .ok (a, r1)
    | (.error e, _) => .error e

/-- Run a reader action `n` times, collecting the results in order — the
`for (i = 0; i < count; ++i)` read loops of `SaveSystem.hpp`. -/
def readCount {α : Type} : ℕ → RM α → RM (List α)
  | 0, _ => pure []
  | Nat.succ k, m => do
    let a ← m
    let rest ← readCount k m
    pure (a :: rest)

/-! ## Save data (`SaveSystem.hpp`)

`GameSaveData` is flattened here: the nested `world` struct and
`temperatureData` struct become plain fields; the byte layout is fixed by
the explicit `serialize`/`deserialize` functions below, which follow the
source's write/read order exactly.  The scalar types `D` (for `double`)
and `Fl` (for `float`) are parameters: the decoder produces bit patterns
(`D = Fl = ℕ`), while `SaveGame` builds a record over the field the grid
uses, converted to patterns at serialization time by the injections
`dbl`/`flt` that model `memcpy`. -/

/-- Creature record `GameSaveData::CreatureData`. -/
structure CreatureData (Fl : Type) where
  x : Fl
  y : Fl
  energy : Fl
  dna : List ℕ
  deriving DecidableEq

/-- Save record `GameSaveData` (metadata, world data, temperature block,
creatures). -/
structure GameSaveData (D Fl : Type) where
  saveName : List ℕ
  timestamp : ℕ
  version : ℕ
  width : ℕ
  height : ℕ
  simulationTime : D
  ambientTemperature : D
  temperatures : List D
  creatures : List (CreatureData Fl)
  deriving DecidableEq

/-- Writer side of `GameSaveData::CreatureData::Serialize`. -/
def CreatureData.serialize {Fl : Type} (flt : Fl → ℕ) (c : CreatureData Fl)
    (buf : List ℕ) : List ℕ :=
  let b1 := WriteFloat buf (flt c.x)
  let b2 := WriteFloat b1 (flt c.y)
  let b3 := WriteFloat b2 (flt c.energy)
  let b4 := WriteUint32 b3 c.dna.length
  if c.dna ≠ [] then WriteBytes b4 c.dna else b4

/-- Writer side of `GameSaveData::TemperatureData::Serialize`: ambient
temperature, count, then the temperatures in order. -/
def serializeTemperatureData {D : Type} (dbl : D → ℕ) (ambient : D)
    (temps : List D) (buf : List ℕ) : List ℕ :=
  let b1 := WriteDouble buf (dbl ambient)
  let b2 := WriteUint32 b1 temps.length
  temps.foldl (fun b t => WriteDouble b (dbl t)) b2

/-- Writer side of `GameSaveData::Serialize`: header, world data,
temperature block, creature count and creatures. -/
def GameSaveData.serialize {D Fl : Type} (dbl : D → ℕ) (flt : Fl → ℕ)
    (d : GameSaveData D Fl) (buf : List ℕ) : List ℕ :=
  let b1 := WriteString buf d.saveName
  let b2 := WriteUint64 b1 d.timestamp
  let b3 := WriteUint32 b2 d.version
  let b4 := WriteUint32 b3 d.width
  let b5 := WriteUint32 b4 d.height
  let b6 := WriteDouble b5 (dbl d.simulationTime)
  let b7 := serializeTemperatureData dbl d.ambientTemperature d.temperatures b6
  let b8 := WriteUint32 b7 d.creatures.length
  d.creatures.foldl (fun b c => c.serialize flt b) b8

/-- Reader side of `GameSaveData::CreatureData::Deserialize`. -/
def CreatureData.deserialize : RM (CreatureData ℕ) := do
  let x ← liftR ReadFloat
  let y ← liftR ReadFloat
  let energy ← liftR ReadFloat
  let dnaSize ← liftR ReadUint32
  let dna ← if 0 < dnaSize then liftR (fun r => ReadBytes r dnaSize) else pure []
  pure { x := x, y := y, energy := energy, dna := dna }

/-- Reader side of `GameSaveData::TemperatureData::Deserialize`: returns
the ambient-temperature pattern and the temperature patterns. -/
def deserializeTemperatureData : RM (ℕ × List ℕ) := do
  let ambient ← liftR ReadDouble
  let count ← liftR ReadUint32
  let temps ← readCount count (liftR ReadDouble)
  pure (ambient, temps)

/-- Reader side of `GameSaveData::Deserialize`. -/
def GameSaveData.deserialize : RM (GameSaveData ℕ ℕ) := do
  let saveName ← liftR ReadString
  let timestamp ← liftR ReadUint64
  let version ← liftR ReadUint32
  let width ← liftR ReadUint32
  let height ← liftR ReadUint32
  let simulationTime ← liftR ReadDouble
  let td ← deserializeTemperatureData
  let creatureCount ← liftR ReadUint32
  let creatures ← readCount creatureCount CreatureData.deserialize
  pure { saveName := saveName, timestamp := timestamp, version := version,
         width := width, height := height, simulationTime := simulationTime,
         ambientTemperature := td.1, temperatures := td.2, creatures := creatures }

/-- Envelope writer `Serialize(const ISerializable&)`: magic, current
version, then the object's payload, into a fresh writer. -/
def Serialize {D Fl : Type} (dbl : D → ℕ) (flt : Fl → ℕ)
    (d : GameSaveData D Fl) : List ℕ :=
  let b1 := WriteUint32 [] SERIALIZATION_MAGIC
  let b2 := WriteUint16 b1 CURRENT_VERSION
  d.serialize dbl flt b2

/-- Envelope reader `Deserialize(ISerializable&, const uint8_t*, size_t)`:
fresh reader at position `0`, magic validation, version check, payload. -/
def Deserialize (data : List ℕ) : Except SerError (GameSaveData ℕ ℕ) :=
  match ValidateMagic { data := data, pos := 0 } with
  | (.error e, _) => .error e
  | (.ok _, r1) =>
    match CheckVersion r1 with
    | (.error e, _) => .error e
    | (.ok _, r2) =>
      match GameSaveData.deserialize r2 with
      | .ok (v, _) => .ok v
      | .error e => .error e

/-- The coordinator `SaveSystem::LoadGame`: any codec failure is wrapped
into a generic load error whose message keeps the original `what()`. -/
def LoadGame (data : List ℕ) : Except String (GameSaveData ℕ ℕ) :=
  match Deserialize data with
  | .ok v => .ok v
  | .error e => .error ("Failed to load game: " ++ e.what)

/-! ## Save coordinator (`SaveSystem.cpp`) -/

section SaveCoordinator

variable {F : Type} [LinearOrderedField F]

/-- The helper `SaveSystem::GetTemperatureData`: the grid's temperatures
flattened in row-major order (`y` outer, `x` inner) through
`getTemperature`. -/
def GetTemperatureData (g : Grid F) : List F :=
  (List.range g.height).flatMap fun y => (List.range g.width).map fun x => getTemperature g x y

/-- The snapshot record built by `SaveSystem::SaveGame` before it is
serialized: metadata (the wall-clock timestamp is a parameter here),
world data copied from the grid, flattened temperatures, no creatures. -/
def SaveGameRecord (saveName : List ℕ) (g : Grid F) (simulationTime : F)
    (timestamp : ℕ) : GameSaveData F F :=
  { saveName := saveName, timestamp := timestamp, version := CURRENT_VERSION,
    width := g.width, height := g.height, simulationTime := simulationTime,
    ambientTemperature := g.ambientTemperature,
    temperatures := GetTemperatureData g, creatures := [] }

/-- The coordinator `SaveSystem::SaveGame`: build the record, then run the
envelope writer on it. -/
def SaveGame (dbl flt : F → ℕ) (saveName : List ℕ) (g : Grid F)
    (simulationTime : F) (timestamp : ℕ) : List ℕ :=
  Serialize dbl flt (SaveGameRecord saveName g simulationTime timestamp)

end SaveCoordinator

/-- Grid construction `TemperatureSystem::TemperatureSystem` followed by
`TemperatureSystem::initialize`: every cell gets the radial-gradient
temperature `ambient * (1 - dist * 0.5)` where `dist` is the cell's
Euclidean distance from the grid center divided by the center-to-corner
distance; `lastUpdate` starts at `0`. -/
noncomputable def initGrid (width height : ℕ) (ambientTemp : ℝ) : Grid ℝ :=
  let centerX : ℝ := width / 2
  let centerY : ℝ := height / 2
  let maxDist : ℝ := Real.sqrt (centerX * centerX + centerY * centerY)
  { cells := fun y x =>
      let dx : ℝ := x - centerX
      let dy : ℝ := y - centerY
      let dist : ℝ := Real.sqrt (dx * dx + dy * dy) / maxDist
      { temperature := ambientTemp * (1 - dist * 0.5),
        nextTemperature := ambientTemp * (1 - dist * 0.5),
        lastUpdate := 0 },
    width := width, height := height, ambientTemperature := ambientTemp }

/-- The normalized distance computed per cell by
`TemperatureSystem::initialize`: Euclidean distance of `(x, y)` from the
grid center `(width / 2.0, height / 2.0)`, divided by the distance from
the center to the corner `(0, 0)`. -/
noncomputable def normDist (width height x y : ℕ) : ℝ :=
  let centerX : ℝ := width / 2
  let centerY : ℝ := height / 2
  Real.sqrt (((x : ℝ) - centerX) * ((x : ℝ) - centerX) +
      ((y : ℝ) - centerY) * ((y : ℝ) - centerY)) /
    Real.sqrt (centerX * centerX + centerY * centerY)

/-! ## Concrete inputs used by witnesses and counterexamples -/

/-- A concrete 3 by 2 rational grid with pairwise distinct temperatures. -/
def exGrid : Grid ℚ :=
  { cells := fun y x =>
      { temperature := (y * 10 + x : ℚ), nextTemperature := 0, lastUpdate := 0 },
    width := 3, height := 2, ambientTemperature := 20 }

/-- A concrete well-formed save record (one-byte save name, empty world). -/
def exRecord : GameSaveData ℕ ℕ :=
  { saveName := [65], timestamp := 0, version := 1, width := 0, height := 0,
    simulationTime := 0, ambientTemperature := 0, temperatures := [], creatures := [] }

/-! ## Lemmas about the grid engine -/

lemma toInt32_of_lt {n : ℕ} (h : n < 2 ^ 31) : toInt32 n = (n : ℤ) := by
  unfold toInt32
  rw [Nat.mod_eq_of_lt (show n < 2 ^ 32 by omega), if_pos h]

section GridLemmas

variable {F : Type}

lemma isValidPosition_toInt32_iff (g : Grid F) (hw : g.width < 2 ^ 31)
    (hh : g.height < 2 ^ 31) (x y : ℕ) (hx : x < 2 ^ 32) (hy : y < 2 ^ 32) :
    isValidPosition g (toInt32 x) (toInt32 y) = true ↔ x < g.width ∧ y < g.height := by
  simp only [isValidPosition, Bool.and_eq_true, decide_eq_true_eq, toInt32]
  rw [Nat.mod_eq_of_lt hx, Nat.mod_eq_of_lt hy,
    Nat.mod_eq_of_lt (show g.width < 2 ^ 32 by omega),
    Nat.mod_eq_of_lt (show g.height < 2 ^ 32 by omega)]
  split_ifs <;> omega

lemma isValidPosition_int_iff (g : Grid F) (hw : g.width < 2 ^ 31)
    (hh : g.height < 2 ^ 31) (x y : ℤ) :
    isValidPosition g x y = true ↔ 0 ≤ x ∧ 0 ≤ y ∧ x < g.width ∧ y < g.height := by
  simp only [isValidPosition, Bool.and_eq_true, decide_eq_true_eq, toInt32]
  rw [Nat.mod_eq_of_lt (show g.width < 2 ^ 32 by omega),
    Nat.mod_eq_of_lt (show g.height < 2 ^ 32 by omega)]
  split_ifs <;> omega

lemma neighborTemps_eq_spec (g : Grid F) (hw : g.width < 2 ^ 31)
    (hh : g.height < 2 ^ 31) {x y : ℕ} (hx : x < g.width) (hy : y < g.height) :
    neighborTemps g x y = specNeighborTemps g x y := by
  unfold neighborTemps specNeighborTemps neighborContrib
  have c1 : (isValidPosition g ((x : ℤ) + 0) ((y : ℤ) + 1) = true) ↔ y + 1 < g.height := by
    rw [isValidPosition_int_iff g hw hh]; omega
  have c2 : (isValidPosition g ((x : ℤ) + 1) ((y : ℤ) + 0) = true) ↔ x + 1 < g.width := by
    rw [isValidPosition_int_iff g hw hh]; omega
  have c3 : (isValidPosition g ((x : ℤ) + 0) ((y : ℤ) + (-1)) = true) ↔ 0 < y := by
    rw [isValidPosition_int_iff g hw hh]; omega
  have c4 : (isValidPosition g ((x : ℤ) + (-1)) ((y : ℤ) + 0) = true) ↔ 0 < x := by
    rw [isValidPosition_int_iff g hw hh]; omega
  have e0x : ((x : ℤ) + 0).toNat = x := by omega
  have e0y : ((y : ℤ) + 0).toNat = y := by omega
  have e1y : ((y : ℤ) + 1).toNat = y + 1 := by omega
  have e1x : ((x : ℤ) + 1).toNat = x + 1 := by omega
  have e2y : ((y : ℤ) + (-1)).toNat = y - 1 := by omega
  have e2x : ((x : ℤ) + (-1)).toNat = x - 1 := by omega
  rw [if_congr c1 rfl rfl, if_congr c2 rfl rfl, if_congr c3 rfl rfl,
    if_congr c4 rfl rfl, e0x, e0y, e1y, e1x, e2y, e2x]

/-- Every gathered neighbor temperature is the committed temperature of
some in-bounds cell of the pre-step grid. -/
lemma mem_neighborContrib (g : Grid F) (hw : g.width < 2 ^ 31)
    (hh : g.height < 2 ^ 31) {nx ny : ℤ} {q : F}
    (h : q ∈ neighborContrib g nx ny) :
    ∃ a b, a < g.width ∧ b < g.height ∧ q = (g.cells b a).temperature := by
  unfold neighborContrib at h
  by_cases hv : isValidPosition g nx ny = true
  · rw [if_pos hv] at h
    rw [isValidPosition_int_iff g hw hh] at hv
    refine ⟨nx.toNat, ny.toNat, by omega, by omega, ?_⟩
    simpa using h
  · rw [if_neg hv] at h
    simp at h

lemma mem_neighborTemps (g : Grid F) (hw : g.width < 2 ^ 31)
    (hh : g.height < 2 ^ 31) {x y : ℕ} {q : F}
    (h : q ∈ neighborTemps g x y) :
    ∃ a b, a < g.width ∧ b < g.height ∧ q = (g.cells b a).temperature := by
  unfold neighborTemps at h
  rcases List.mem_append.1 h with h' | h'
  · rcases List.mem_append.1 h' with h'' | h''
    · rcases List.mem_append.1 h'' with h3 | h3
      · exact mem_neighborContrib g hw hh h3
      · exact mem_neighborContrib g hw hh h3
    · exact mem_neighborContrib g hw hh h''
  · exact mem_neighborContrib g hw hh h'

/-- The compute phase writes into `nextTemperature` the blended value for
cells with at least one in-bounds neighbor and the unchanged temperature
otherwise. -/
lemma diffuse_nextTemp_eq [LinearOrderedField F] (g : Grid F) (x y : ℕ) :
    ((diffuseTemperature g).cells y x).nextTemperature =
      if 0 < (neighborTemps g x y).length then
        (g.cells y x).temperature +
          ((neighborTemps g x y).sum / ((neighborTemps g x y).length : F) -
            (g.cells y x).temperature) * DIFFUSION_RATE
      else (g.cells y x).temperature := by
  show (if 0 < (neighborTemps g x y).length then
      { g.cells y x with nextTemperature :=
          (g.cells y x).temperature +
            ((neighborTemps g x y).sum / ((neighborTemps g x y).length : F) -
              (g.cells y x).temperature) * DIFFUSION_RATE }
    else { g.cells y x with
            nextTemperature := (g.cells y x).temperature }).nextTemperature = _
  rw [apply_ite Cell.nextTemperature]

lemma list_sum_le_length_mul [LinearOrderedField F] {l : List F} {hi : F}
    (h : ∀ q ∈ l, q ≤ hi) : l.sum ≤ (l.length : F) * hi := by
  induction l with
  | nil => simp
  | cons a l ih =>
    simp only [List.sum_cons, List.length_cons]
    have ha := h a (by simp)
    have ih2 := ih fun q hq => h q (by simp [hq])
    push_cast
    linarith

lemma length_mul_le_list_sum [LinearOrderedField F] {l : List F} {lo : F}
    (h : ∀ q ∈ l, lo ≤ q) : (l.length : F) * lo ≤ l.sum := by
  induction l with
  | nil => simp
  | cons a l ih =>
    simp only [List.sum_cons, List.length_cons]
    have ha := h a (by simp)
    have ih2 := ih fun q hq => h q (by simp [hq])
    push_cast
    linarith

/-- One step keeps every cell's temperature inside any interval that
contains all pre-step temperatures: the new value is a convex combination
of the old cell value and the mean of old neighbor values. -/
lemma update_cell_temp_bounds [LinearOrderedField F] (g : Grid F) (t : ℕ)
    (hw2 : g.width < 2 ^ 31) (hh2 : g.height < 2 ^ 31)
    {x y : ℕ} (hx : x < g.width) (hy : y < g.height) {lo hi : F}
    (hbound : ∀ a b, a < g.width → b < g.height →
      lo ≤ (g.cells b a).temperature ∧ (g.cells b a).temperature ≤ hi) :
    lo ≤ ((update g t).cells y x).temperature ∧
      ((update g t).cells y x).temperature ≤ hi := by
  have htemp : ((update g t).cells y x).temperature =
      ((diffuseTemperature g).cells y x).nextTemperature := rfl
  rw [htemp, diffuse_nextTemp_eq]
  have hself := hbound x y hx hy
  by_cases h0 : 0 < (neighborTemps g x y).length
  · have hmem : ∀ q ∈ neighborTemps g x y, lo ≤ q ∧ q ≤ hi := by
      intro q hq
      obtain ⟨a, b, ha, hb, hq2⟩ := mem_neighborTemps g hw2 hh2 hq
      rw [hq2]
      exact hbound a b ha hb
    have hsum_le := list_sum_le_length_mul fun q hq => (hmem q hq).2
    have hle_sum := length_mul_le_list_sum fun q hq => (hmem q hq).1
    have hlen : (0 : F) < ((neighborTemps g x y).length : F) := by exact_mod_cast h0
    rw [if_pos h0]
    have havg_le : (neighborTemps g x y).sum / ((neighborTemps g x y).length : F) ≤ hi := by
      rw [div_le_iff₀ hlen]
      linarith
    have hle_avg : lo ≤ (neighborTemps g x y).sum / ((neighborTemps g x y).length : F) := by
      rw [le_div_iff₀ hlen]
      linarith
    have hr : (DIFFUSION_RATE : F) = 1 / 20 := by norm_num [DIFFUSION_RATE]
    rw [hr]
    constructor
    · linarith
    · linarith
  · rw [if_neg h0]
    exact hself

end GridLemmas

/-! ## Claim theorems -/

/-- C1: the persistence codec does NOT round-trip.  `CheckVersion` is a
`const` member that never consumes the two version bytes, so the payload
decode starts on the version field and misreads the save-name length;
already on the well-formed record `exRecord` (whose temperature count
equals `width * height`), decoding the bytes produced by the envelope
writer fails with a structural error instead of returning the record,
both at the codec level and through `SaveSystem::LoadGame`. -/
theorem C1_roundtrip_fails_on_exRecord :
    Deserialize (Serialize id id exRecord) =
      .error (.outOfRange "String length exceeds buffer size") ∧
    LoadGame (Serialize id id exRecord) =
      .error "Failed to load game: String length exceeds buffer size" :=
  ⟨rfl, rfl⟩

/-- C6: `getTemperature` returns the cell's committed temperature on every
in-range coordinate pair and falls back to `ambientTemperature` on every
out-of-range pair, with no error path, for every valid grid size. -/
theorem C6_getTemperature_boundary_fallback {F : Type} [LinearOrderedField F]
    (g : Grid F) (hw1 : 0 < g.width) (hw2 : g.width < 2 ^ 31)
    (hh1 : 0 < g.height) (hh2 : g.height < 2 ^ 31)
    (x y : ℕ) (hx : x < 2 ^ 32) (hy : y < 2 ^ 32) :
    getTemperature g x y =
      if x < g.width ∧ y < g.height then (g.cells y x).temperature
      else g.ambientTemperature := by
  unfold getTemperature
  by_cases hin : x < g.width ∧ y < g.height
  · rw [if_pos ((isValidPosition_toInt32_iff g hw2 hh2 x y hx hy).mpr hin), if_pos hin]
  · rw [if_neg (fun hv => hin ((isValidPosition_toInt32_iff g hw2 hh2 x y hx hy).mp hv)),
      if_neg hin]

/-- Witness for C6 on the concrete grid `exGrid`, at the out-of-range
column `7`. -/
theorem C6_getTemperature_boundary_fallback_witness :
    0 < exGrid.width ∧ exGrid.width < 2 ^ 31 ∧
    0 < exGrid.height ∧ exGrid.height < 2 ^ 31 ∧
    7 < 2 ^ 32 ∧ 0 < 2 ^ 32 ∧
    getTemperature exGrid 7 0 =
      (if 7 < exGrid.width ∧ 0 < exGrid.height then (exGrid.cells 0 7).temperature
       else exGrid.ambientTemperature) :=
  ⟨by decide, by decide, by decide, by decide, by decide, by decide,
    C6_getTemperature_boundary_fallback exGrid (by decide) (by decide) (by decide)
      (by decide) 7 0 (by decide) (by decide)⟩

/-- C7: `setTemperature` is a no-op out of range; in range it sets both
`temperature` and `nextTemperature` of exactly the addressed cell (every
other cell and all grid metadata unchanged, `lastUpdate` untouched), and
an immediately following `getTemperature` at the same coordinates returns
the written value. -/
theorem C7_setTemperature_write_semantics {F : Type} [LinearOrderedField F]
    (g : Grid F) (x y : ℕ) (v : F)
    (hw2 : g.width < 2 ^ 31) (hh2 : g.height < 2 ^ 31)
    (hx : x < 2 ^ 32) (hy : y < 2 ^ 32) :
    (¬(x < g.width ∧ y < g.height) → setTemperature g x y v = g) ∧
    (x < g.width → y < g.height →
      ((setTemperature g x y v).cells y x).temperature = v ∧
      ((setTemperature g x y v).cells y x).nextTemperature = v ∧
      ((setTemperature g x y v).cells y x).lastUpdate = (g.cells y x).lastUpdate ∧
      (∀ x0 y0 : ℕ, ¬(y0 = y ∧ x0 = x) →
        (setTemperature g x y v).cells y0 x0 = g.cells y0 x0) ∧
      (setTemperature g x y v).width = g.width ∧
      (setTemperature g x y v).height = g.height ∧
      (setTemperature g x y v).ambientTemperature = g.ambientTemperature ∧
      getTemperature (setTemperature g x y v) x y = v) := by
  constructor
  · intro hout
    unfold setTemperature
    rw [if_neg (fun hv => hout ((isValidPosition_toInt32_iff g hw2 hh2 x y hx hy).mp hv))]
  · intro hxw hyh
    have hv : isValidPosition g (toInt32 x) (toInt32 y) = true :=
      (isValidPosition_toInt32_iff g hw2 hh2 x y hx hy).mpr ⟨hxw, hyh⟩
    have hset : setTemperature g x y v =
        { g with cells := fun y0 x0 =>
            if y0 = y ∧ x0 = x then
              { g.cells y0 x0 with temperature := v, nextTemperature := v }
            else g.cells y0 x0 } := by
      unfold setTemperature
      rw [if_pos hv]
    have hcell : (setTemperature g x y v).cells y x =
        { g.cells y x with temperature := v, nextTemperature := v } := by
      rw [hset]
      simp
    have hWidth : (setTemperature g x y v).width = g.width := by rw [hset]
    have hHeight : (setTemperature g x y v).height = g.height := by rw [hset]
    have hAmb : (setTemperature g x y v).ambientTemperature = g.ambientTemperature := by
      rw [hset]
    have hv3 : isValidPosition (setTemperature g x y v) (toInt32 x) (toInt32 y) = true := by
      rw [isValidPosition_toInt32_iff _ (by rw [hWidth]; exact hw2)
        (by rw [hHeight]; exact hh2) x y hx hy, hWidth, hHeight]
      exact ⟨hxw, hyh⟩
    refine ⟨by rw [hcell], by rw [hcell], by rw [hcell], ?_, hWidth, hHeight, hAmb, ?_⟩
    · intro x0 y0 hne
      rw [hset]
      exact if_neg hne
    · unfold getTemperature
      rw [if_pos hv3, hcell]

/-- Witness for C7 on `exGrid` at cell `(1, 1)` with value `42`. -/
theorem C7_setTemperature_write_semantics_witness :
    exGrid.width < 2 ^ 31 ∧ exGrid.height < 2 ^ 31 ∧
    1 < 2 ^ 32 ∧ 1 < 2 ^ 32 ∧
    ((¬((1 : ℕ) < exGrid.width ∧ (1 : ℕ) < exGrid.height) →
        setTemperature exGrid 1 1 (42 : ℚ) = exGrid) ∧
      ((1 : ℕ) < exGrid.width → (1 : ℕ) < exGrid.height →
        ((setTemperature exGrid 1 1 (42 : ℚ)).cells 1 1).temperature = 42 ∧
        ((setTemperature exGrid 1 1 (42 : ℚ)).cells 1 1).nextTemperature = 42 ∧
        ((setTemperature exGrid 1 1 (42 : ℚ)).cells 1 1).lastUpdate =
          (exGrid.cells 1 1).lastUpdate ∧
        (∀ x0 y0 : ℕ, ¬(y0 = 1 ∧ x0 = 1) →
          (setTemperature exGrid 1 1 (42 : ℚ)).cells y0 x0 = exGrid.cells y0 x0) ∧
        (setTemperature exGrid 1 1 (42 : ℚ)).width = exGrid.width ∧
        (setTemperature exGrid 1 1 (42 : ℚ)).height = exGrid.height ∧
        (setTemperature exGrid 1 1 (42 : ℚ)).ambientTemperature =
          exGrid.ambientTemperature ∧
        getTemperature (setTemperature exGrid 1 1 (42 : ℚ)) 1 1 = 42)) :=
  ⟨by decide, by decide, by decide, by decide,
    C7_setTemperature_write_semantics exGrid 1 1 (42 : ℚ) (by decide) (by decide)
      (by decide) (by decide)⟩

/-- C2: one `update t` call gives every cell the temperature
`prev + (avg - prev) * 0.05`, where `avg` is the arithmetic mean of the
pre-step temperatures of exactly the in-bounds axis-aligned neighbors;
a cell with no in-bounds neighbor keeps its temperature; `lastUpdate`
becomes `t`; the neighbor count is the number of in-bounds neighbors
(2 at a corner, 3 on an edge, 4 in the interior).  All neighbor values
on the right-hand side are read from the pre-step grid `g`, which is the
two-phase compute-then-commit guarantee. -/
theorem C2_update_step {F : Type} [LinearOrderedField F] (g : Grid F) (t : ℕ)
    (x y : ℕ) (hw2 : g.width < 2 ^ 31) (hh2 : g.height < 2 ^ 31)
    (hx : x < g.width) (hy : y < g.height) :
    ((update g t).cells y x).lastUpdate = t ∧
    (specNeighborTemps g x y ≠ [] →
      ((update g t).cells y x).temperature =
        (g.cells y x).temperature +
          ((specNeighborTemps g x y).sum / ((specNeighborTemps g x y).length : F) -
            (g.cells y x).temperature) * 0.05) ∧
    (specNeighborTemps g x y = [] →
      ((update g t).cells y x).temperature = (g.cells y x).temperature) ∧
    (specNeighborTemps g x y).length =
      ((if y + 1 < g.height then 1 else 0) + (if x + 1 < g.width then 1 else 0) +
        (if 0 < y then 1 else 0) + (if 0 < x then 1 else 0)) := by
  have hns := neighborTemps_eq_spec g hw2 hh2 hx hy
  have htemp : ((update g t).cells y x).temperature =
      ((diffuseTemperature g).cells y x).nextTemperature := rfl
  have hdiff := diffuse_nextTemp_eq g x y
  refine ⟨rfl, ?_, ?_, ?_⟩
  · intro hne
    have h0 : 0 < (specNeighborTemps g x y).length := List.length_pos.mpr hne
    rw [htemp, hdiff, hns, if_pos h0]
    rfl
  · intro hnil
    rw [htemp, hdiff, hns, hnil]
    simp
  · unfold specNeighborTemps
    simp only [List.length_append, apply_ite List.length, List.length_singleton,
      List.length_nil]

/-- Witness for C2 on the concrete grid `exGrid`, at the edge cell
`(x, y) = (1, 0)` with tick `9`. -/
theorem C2_update_step_witness :
    exGrid.width < 2 ^ 31 ∧ exGrid.height < 2 ^ 31 ∧ 1 < exGrid.width ∧ 0 < exGrid.height ∧
    (((update exGrid 9).cells 0 1).lastUpdate = 9 ∧
      (specNeighborTemps exGrid 1 0 ≠ [] →
        ((update exGrid 9).cells 0 1).temperature =
          (exGrid.cells 0 1).temperature +
            ((specNeighborTemps exGrid 1 0).sum /
                ((specNeighborTemps exGrid 1 0).length : ℚ) -
              (exGrid.cells 0 1).temperature) * 0.05) ∧
      (specNeighborTemps exGrid 1 0 = [] →
        ((update exGrid 9).cells 0 1).temperature = (exGrid.cells 0 1).temperature) ∧
      (specNeighborTemps exGrid 1 0).length =
        ((if 0 + 1 < exGrid.height then 1 else 0) +
          (if 1 + 1 < exGrid.width then 1 else 0) +
          (if 0 < 0 then 1 else 0) + (if 0 < 1 then 1 else 0))) :=
  ⟨by decide, by decide, by decide, by decide,
    C2_update_step exGrid 9 1 0 (by decide) (by decide) (by decide) (by decide)⟩

/-! ## Lemmas about the reader -/

lemma ReadUint32_of_le (r : BinaryReader) (h : r.pos + 4 ≤ r.data.length) :
    ReadUint32 r = (.ok (decodeLE ((r.data.drop r.pos).take 4)),
      { data := r.data, pos := r.pos + 4 }) := by
  unfold ReadUint32
  rw [if_neg (by omega)]

lemma ReadString_of_short (r : BinaryReader) (h : r.data.length < r.pos + 4) :
    ReadString r = (.error (.outOfRange "Read past end of buffer"), r) := by
  unfold ReadString ReadUint32
  rw [if_pos (by omega)]

lemma ReadString_of_overflow (r : BinaryReader) (h1 : r.pos + 4 ≤ r.data.length)
    (h2 : r.data.length < r.pos + 4 + decodeLE ((r.data.drop r.pos).take 4)) :
    ReadString r = (.error (.outOfRange "String length exceeds buffer size"),
      { data := r.data, pos := r.pos + 4 }) := by
  unfold ReadString
  rw [ReadUint32_of_le r h1]
  show (if r.pos + 4 + decodeLE ((r.data.drop r.pos).take 4) > r.data.length then
      ((.error (.outOfRange "String length exceeds buffer size") :
          Except SerError (List ℕ)),
        ({ data := r.data, pos := r.pos + 4 } : BinaryReader))
    else
      (.ok ((r.data.drop (r.pos + 4)).take (decodeLE ((r.data.drop r.pos).take 4))),
        { data := r.data, pos := r.pos + 4 + decodeLE ((r.data.drop r.pos).take 4) })) = _
  rw [if_pos (by omega)]

lemma ReadString_of_ok (r : BinaryReader) (h1 : r.pos + 4 ≤ r.data.length)
    (h2 : r.pos + 4 + decodeLE ((r.data.drop r.pos).take 4) ≤ r.data.length) :
    ReadString r =
      (.ok ((r.data.drop (r.pos + 4)).take (decodeLE ((r.data.drop r.pos).take 4))),
        { data := r.data, pos := r.pos + 4 + decodeLE ((r.data.drop r.pos).take 4) }) := by
  unfold ReadString
  rw [ReadUint32_of_le r h1]
  show (if r.pos + 4 + decodeLE ((r.data.drop r.pos).take 4) > r.data.length then
      ((.error (.outOfRange "String length exceeds buffer size") :
          Except SerError (List ℕ)),
        ({ data := r.data, pos := r.pos + 4 } : BinaryReader))
    else
      (.ok ((r.data.drop (r.pos + 4)).take (decodeLE ((r.data.drop r.pos).take 4))),
        { data := r.data, pos := r.pos + 4 + decodeLE ((r.data.drop r.pos).take 4) })) = _
  rw [if_neg (by omega)]

/-- C3: every fixed-width primitive read fails (with the out-of-range
error) exactly when `cursor + width` exceeds the buffer length, and on
success advances the cursor by exactly the width; a string read moves the
cursor past the 4-byte length prefix, fails when the decoded length
exceeds the remaining bytes, and on success ends with the cursor advanced
by `4 + length`. -/
theorem C3_reader_structural_guard :
    ∀ (r : BinaryReader) (n : ℕ),
      ((ReadUint8 r).1.isOk = true ↔ r.pos + 1 ≤ r.data.length) ∧
      ((ReadUint8 r).2.pos = if r.pos + 1 ≤ r.data.length then r.pos + 1 else r.pos) ∧
      ((ReadUint16 r).1.isOk = true ↔ r.pos + 2 ≤ r.data.length) ∧
      ((ReadUint16 r).2.pos = if r.pos + 2 ≤ r.data.length then r.pos + 2 else r.pos) ∧
      ((ReadUint32 r).1.isOk = true ↔ r.pos + 4 ≤ r.data.length) ∧
      ((ReadUint32 r).2.pos = if r.pos + 4 ≤ r.data.length then r.pos + 4 else r.pos) ∧
      ((ReadUint64 r).1.isOk = true ↔ r.pos + 8 ≤ r.data.length) ∧
      ((ReadUint64 r).2.pos = if r.pos + 8 ≤ r.data.length then r.pos + 8 else r.pos) ∧
      ((ReadFloat r).1.isOk = true ↔ r.pos + 4 ≤ r.data.length) ∧
      ((ReadFloat r).2.pos = if r.pos + 4 ≤ r.data.length then r.pos + 4 else r.pos) ∧
      ((ReadDouble r).1.isOk = true ↔ r.pos + 8 ≤ r.data.length) ∧
      ((ReadDouble r).2.pos = if r.pos + 8 ≤ r.data.length then r.pos + 8 else r.pos) ∧
      ((ReadBool r).1.isOk = true ↔ r.pos + 1 ≤ r.data.length) ∧
      ((ReadBool r).2.pos = if r.pos + 1 ≤ r.data.length then r.pos + 1 else r.pos) ∧
      ((ReadBytes r n).1.isOk = true ↔ r.pos + n ≤ r.data.length) ∧
      ((ReadBytes r n).2.pos = if r.pos + n ≤ r.data.length then r.pos + n else r.pos) ∧
      ((ReadString r).1.isOk = true ↔
        r.pos + 4 ≤ r.data.length ∧
          r.pos + 4 + decodeLE ((r.data.drop r.pos).take 4) ≤ r.data.length) ∧
      ((ReadString r).2.pos =
        if r.pos + 4 ≤ r.data.length then
          (if r.pos + 4 + decodeLE ((r.data.drop r.pos).take 4) ≤ r.data.length then
            r.pos + 4 + decodeLE ((r.data.drop r.pos).take 4)
          else r.pos + 4)
        else r.pos) := by
  intro r n
  refine ⟨?_, ?_, ?_, ?_, ?_, ?_, ?_, ?_, ?_, ?_, ?_, ?_, ?_, ?_, ?_, ?_, ?_, ?_⟩
  · unfold ReadUint8; split_ifs with h <;> simp [Except.isOk, Except.toBool] <;> omega
  · unfold ReadUint8; split_ifs with h h2 <;> simp [Except.isOk, Except.toBool] <;> omega
  · unfold ReadUint16; split_ifs with h <;> simp [Except.isOk, Except.toBool] <;> omega
  · unfold ReadUint16; split_ifs with h h2 <;> simp [Except.isOk, Except.toBool] <;> omega
  · unfold ReadUint32; split_ifs with h <;> simp [Except.isOk, Except.toBool] <;> omega
  · unfold ReadUint32; split_ifs with h h2 <;> simp [Except.isOk, Except.toBool] <;> omega
  · unfold ReadUint64; split_ifs with h <;> simp [Except.isOk, Except.toBool] <;> omega
  · unfold ReadUint64; split_ifs with h h2 <;> simp [Except.isOk, Except.toBool] <;> omega
  · unfold ReadFloat ReadUint32; split_ifs with h <;> simp [Except.isOk, Except.toBool] <;> omega
  · unfold ReadFloat ReadUint32; split_ifs with h h2 <;> simp [Except.isOk, Except.toBool] <;> omega
  · unfold ReadDouble ReadUint64; split_ifs with h <;> simp [Except.isOk, Except.toBool] <;> omega
  · unfold ReadDouble ReadUint64; split_ifs with h h2 <;> simp [Except.isOk, Except.toBool] <;> omega
  · unfold ReadBool ReadUint8; split_ifs with h <;> simp [Except.isOk, Except.toBool] <;> omega
  · unfold ReadBool ReadUint8; split_ifs with h h2 <;> simp [Except.isOk, Except.toBool] <;> omega
  · unfold ReadBytes; split_ifs with h <;> simp [Except.isOk, Except.toBool] <;> omega
  · unfold ReadBytes; split_ifs with h h2 <;> simp [Except.isOk, Except.toBool] <;> omega
  · by_cases h4 : r.pos + 4 ≤ r.data.length
    · by_cases hL : r.pos + 4 + decodeLE ((r.data.drop r.pos).take 4) ≤ r.data.length
      · rw [ReadString_of_ok r h4 hL]
        simp [Except.isOk, Except.toBool]
        omega
      · rw [ReadString_of_overflow r h4 (by omega)]
        simp [Except.isOk, Except.toBool]
        omega
    · rw [ReadString_of_short r (by omega)]
      simp [Except.isOk, Except.toBool]
      omega
  · by_cases h4 : r.pos + 4 ≤ r.data.length
    · by_cases hL : r.pos + 4 + decodeLE ((r.data.drop r.pos).take 4) ≤ r.data.length
      · rw [ReadString_of_ok r h4 hL, if_pos h4, if_pos hL]
      · rw [ReadString_of_overflow r h4 (by omega), if_pos h4, if_neg hL]
    · rw [ReadString_of_short r (by omega), if_neg h4]

/-- C10: when a fixed-width primitive read fails the reader is returned
exactly as it was (the bounds check precedes any cursor movement), while
a string read whose decoded length overruns the remaining bytes fails
with the cursor already advanced past the 4-byte prefix. -/
theorem C10_reader_error_atomicity :
    ∀ (r : BinaryReader) (n : ℕ),
      ((ReadUint8 r).1.isOk = false → (ReadUint8 r).2 = r) ∧
      ((ReadUint16 r).1.isOk = false → (ReadUint16 r).2 = r) ∧
      ((ReadUint32 r).1.isOk = false → (ReadUint32 r).2 = r) ∧
      ((ReadUint64 r).1.isOk = false → (ReadUint64 r).2 = r) ∧
      ((ReadFloat r).1.isOk = false → (ReadFloat r).2 = r) ∧
      ((ReadDouble r).1.isOk = false → (ReadDouble r).2 = r) ∧
      ((ReadBool r).1.isOk = false → (ReadBool r).2 = r) ∧
      ((ReadBytes r n).1.isOk = false → (ReadBytes r n).2 = r) ∧
      (r.pos + 4 ≤ r.data.length →
        r.data.length < r.pos + 4 + decodeLE ((r.data.drop r.pos).take 4) →
        (ReadString r).1.isOk = false ∧
          (ReadString r).2 = { data := r.data, pos := r.pos + 4 }) := by
  intro r n
  refine ⟨?_, ?_, ?_, ?_, ?_, ?_, ?_, ?_, ?_⟩
  · intro h; unfold ReadUint8 at h ⊢; split_ifs at h ⊢ <;> simp_all [Except.isOk, Except.toBool]
  · intro h; unfold ReadUint16 at h ⊢; split_ifs at h ⊢ <;> simp_all [Except.isOk, Except.toBool]
  · intro h; unfold ReadUint32 at h ⊢; split_ifs at h ⊢ <;> simp_all [Except.isOk, Except.toBool]
  · intro h; unfold ReadUint64 at h ⊢; split_ifs at h ⊢ <;> simp_all [Except.isOk, Except.toBool]
  · intro h; unfold ReadFloat ReadUint32 at h ⊢
    split_ifs at h ⊢ <;> simp_all [Except.isOk, Except.toBool]
  · intro h; unfold ReadDouble ReadUint64 at h ⊢
    split_ifs at h ⊢ <;> simp_all [Except.isOk, Except.toBool]
  · intro h; unfold ReadBool ReadUint8 at h ⊢
    split_ifs at h ⊢ <;> simp_all [Except.isOk, Except.toBool]
  · intro h; unfold ReadBytes at h ⊢; split_ifs at h ⊢ <;> simp_all [Except.isOk, Except.toBool]
  · intro h1 h2
    rw [ReadString_of_overflow r h1 h2]
    exact ⟨rfl, rfl⟩

/-- Witness for C10 on a 4-byte buffer: every fixed read at cursor 4
fails and leaves the reader untouched, while the string read at cursor 0
decodes the length `5`, overruns, and fails with the cursor at `4`. -/
theorem C10_reader_error_atomicity_witness :
    (ReadUint8 { data := [5, 0, 0, 0], pos := 4 }).2 = { data := [5, 0, 0, 0], pos := 4 } ∧
    (ReadUint16 { data := [5, 0, 0, 0], pos := 4 }).2 = { data := [5, 0, 0, 0], pos := 4 } ∧
    (ReadUint32 { data := [5, 0, 0, 0], pos := 4 }).2 = { data := [5, 0, 0, 0], pos := 4 } ∧
    (ReadUint64 { data := [5, 0, 0, 0], pos := 4 }).2 = { data := [5, 0, 0, 0], pos := 4 } ∧
    (ReadFloat { data := [5, 0, 0, 0], pos := 4 }).2 = { data := [5, 0, 0, 0], pos := 4 } ∧
    (ReadDouble { data := [5, 0, 0, 0], pos := 4 }).2 = { data := [5, 0, 0, 0], pos := 4 } ∧
    (ReadBool { data := [5, 0, 0, 0], pos := 4 }).2 = { data := [5, 0, 0, 0], pos := 4 } ∧
    (ReadBytes { data := [5, 0, 0, 0], pos := 4 } 1).2 = { data := [5, 0, 0, 0], pos := 4 } ∧
    ((ReadString { data := [5, 0, 0, 0], pos := 0 }).1.isOk = false ∧
      (ReadString { data := [5, 0, 0, 0], pos := 0 }).2 =
        { data := ({ data := [5, 0, 0, 0], pos := 0 } : BinaryReader).data,
          pos := ({ data := [5, 0, 0, 0], pos := 0 } : BinaryReader).pos + 4 }) :=
  ⟨(C10_reader_error_atomicity { data := [5, 0, 0, 0], pos := 4 } 1).1 (by decide),
    (C10_reader_error_atomicity { data := [5, 0, 0, 0], pos := 4 } 1).2.1 (by decide),
    (C10_reader_error_atomicity { data := [5, 0, 0, 0], pos := 4 } 1).2.2.1 (by decide),
    (C10_reader_error_atomicity { data := [5, 0, 0, 0], pos := 4 } 1).2.2.2.1 (by decide),
    (C10_reader_error_atomicity { data := [5, 0, 0, 0], pos := 4 } 1).2.2.2.2.1 (by decide),
    (C10_reader_error_atomicity { data := [5, 0, 0, 0], pos := 4 } 1).2.2.2.2.2.1 (by decide),
    (C10_reader_error_atomicity { data := [5, 0, 0, 0], pos := 4 } 1).2.2.2.2.2.2.1 (by decide),
    (C10_reader_error_atomicity { data := [5, 0, 0, 0], pos := 4 } 1).2.2.2.2.2.2.2.1 (by decide),
    (C10_reader_error_atomicity { data := [5, 0, 0, 0], pos := 0 } 1).2.2.2.2.2.2.2.2
      (by decide) (by decide)⟩

/-! ## Lemmas about the writers and the envelope -/

lemma foldl_append_exists {α : Type} (f : List ℕ → α → List ℕ)
    (hf : ∀ b a, ∃ t, f b a = b ++ t) :
    ∀ (l : List α) (buf : List ℕ), ∃ t, l.foldl f buf = buf ++ t := by
  intro l
  induction l with
  | nil => intro buf; exact ⟨[], by simp⟩
  | cons a l ih =>
    intro buf
    obtain ⟨t1, h1⟩ := hf buf a
    obtain ⟨t2, h2⟩ := ih (f buf a)
    exact ⟨t1 ++ t2, by rw [List.foldl_cons, h2, h1, List.append_assoc]⟩

lemma CreatureData_serialize_append {Fl : Type} (flt : Fl → ℕ) (c : CreatureData Fl)
    (buf : List ℕ) : ∃ t, c.serialize flt buf = buf ++ t := by
  unfold CreatureData.serialize WriteFloat WriteUint32 WriteBytes
  split_ifs
  · exact ⟨_, by simp only [List.append_assoc]; rfl⟩
  · exact ⟨_, by simp only [List.append_assoc]; rfl⟩

lemma serializeTemperatureData_append {D : Type} (dbl : D → ℕ) (a : D)
    (temps : List D) (buf : List ℕ) :
    ∃ t, serializeTemperatureData dbl a temps buf = buf ++ t := by
  obtain ⟨t, ht⟩ := foldl_append_exists (fun b v => WriteDouble b (dbl v))
    (fun b v => ⟨_, rfl⟩) temps (WriteUint32 (WriteDouble buf (dbl a)) temps.length)
  exact ⟨_, by
    rw [show serializeTemperatureData dbl a temps buf =
        temps.foldl (fun b v => WriteDouble b (dbl v))
          (WriteUint32 (WriteDouble buf (dbl a)) temps.length) from rfl, ht]
    simp only [WriteUint32, WriteDouble, WriteUint64, List.append_assoc]
    rfl⟩

lemma GameSaveData_serialize_append {D Fl : Type} (dbl : D → ℕ) (flt : Fl → ℕ)
    (d : GameSaveData D Fl) (buf : List ℕ) :
    ∃ t, d.serialize dbl flt buf = buf ++ t := by
  obtain ⟨t7, h7⟩ := serializeTemperatureData_append dbl d.ambientTemperature
    d.temperatures (WriteDouble (WriteUint32 (WriteUint32 (WriteUint32
      (WriteUint64 (WriteString buf d.saveName) d.timestamp) d.version) d.width)
      d.height) (dbl d.simulationTime))
  obtain ⟨t9, h9⟩ := foldl_append_exists (fun b c => CreatureData.serialize flt c b)
    (fun b c => CreatureData_serialize_append flt c b) d.creatures
    (WriteUint32 (serializeTemperatureData dbl d.ambientTemperature d.temperatures
      (WriteDouble (WriteUint32 (WriteUint32 (WriteUint32
        (WriteUint64 (WriteString buf d.saveName) d.timestamp) d.version) d.width)
        d.height) (dbl d.simulationTime))) d.creatures.length)
  exact ⟨_, by
    rw [show d.serialize dbl flt buf =
        d.creatures.foldl (fun b c => CreatureData.serialize flt c b)
          (WriteUint32 (serializeTemperatureData dbl d.ambientTemperature d.temperatures
            (WriteDouble (WriteUint32 (WriteUint32 (WriteUint32
              (WriteUint64 (WriteString buf d.saveName) d.timestamp) d.version) d.width)
              d.height) (dbl d.simulationTime))) d.creatures.length) from rfl, h9, h7]
    simp only [WriteUint32, WriteUint64, WriteDouble, WriteString, List.append_assoc]
    rfl⟩

/-- Every envelope-serialized buffer starts with the 6 fixed header bytes:
the little-endian magic and the little-endian current version. -/
lemma Serialize_header {D Fl : Type} (dbl : D → ℕ) (flt : Fl → ℕ)
    (d : GameSaveData D Fl) :
    ∃ t, Serialize dbl flt d = [83, 79, 86, 69, 1, 0] ++ t := by
  obtain ⟨t, ht⟩ := GameSaveData_serialize_append dbl flt d
    (WriteUint16 (WriteUint32 [] SERIALIZATION_MAGIC) CURRENT_VERSION)
  refine ⟨t, ?_⟩
  show d.serialize dbl flt (WriteUint16 (WriteUint32 [] SERIALIZATION_MAGIC) CURRENT_VERSION)
    = [83, 79, 86, 69, 1, 0] ++ t
  rw [ht, show WriteUint16 (WriteUint32 [] SERIALIZATION_MAGIC) CURRENT_VERSION
    = [83, 79, 86, 69, 1, 0] from by decide]

lemma ValidateMagic_bad (d : List ℕ) (h4 : 4 ≤ d.length)
    (hm : decodeLE (d.take 4) ≠ SERIALIZATION_MAGIC) :
    ValidateMagic ⟨d, 0⟩ = (.error (.runtimeError "Invalid file format"), ⟨d, 0 + 4⟩) := by
  unfold ValidateMagic
  rw [ReadUint32_of_le ⟨d, 0⟩ (show (0 : ℕ) + 4 ≤ d.length by omega)]
  show (if decodeLE ((List.drop 0 d).take 4) ≠ SERIALIZATION_MAGIC then
      ((.error (.runtimeError "Invalid file format") : Except SerError Unit),
        (⟨d, 0 + 4⟩ : BinaryReader))
    else (.ok (), ⟨d, 0 + 4⟩)) = (.error (.runtimeError "Invalid file format"), ⟨d, 0 + 4⟩)
  rw [List.drop_zero, if_pos hm]

lemma ValidateMagic_ok (d : List ℕ) (h4 : 4 ≤ d.length)
    (hm : decodeLE (d.take 4) = SERIALIZATION_MAGIC) :
    ValidateMagic ⟨d, 0⟩ = (.ok (), ⟨d, 0 + 4⟩) := by
  unfold ValidateMagic
  rw [ReadUint32_of_le ⟨d, 0⟩ (show (0 : ℕ) + 4 ≤ d.length by omega)]
  show (if decodeLE ((List.drop 0 d).take 4) ≠ SERIALIZATION_MAGIC then
      ((.error (.runtimeError "Invalid file format") : Except SerError Unit),
        (⟨d, 0 + 4⟩ : BinaryReader))
    else (.ok (), ⟨d, 0 + 4⟩)) = (.ok (), ⟨d, 0 + 4⟩)
  rw [List.drop_zero, if_neg (by simp [hm])]

lemma CheckVersion_newer (d : List ℕ) (h6 : 6 ≤ d.length)
    (hv : CURRENT_VERSION < decodeLE ((d.drop 4).take 2)) :
    CheckVersion ⟨d, 0 + 4⟩ =
      (.error (.runtimeError "Incompatible save version"), ⟨d, 0 + 4⟩) := by
  unfold CheckVersion
  rw [if_neg (show ¬((⟨d, 0 + 4⟩ : BinaryReader).pos + 2 > d.length) by
    show ¬(0 + 4 + 2 > d.length); omega)]
  show (if decodeLE ((d.drop (0 + 4)).take 2) > CURRENT_VERSION then
      ((.error (.runtimeError "Incompatible save version") : Except SerError Unit),
        (⟨d, 0 + 4⟩ : BinaryReader))
    else (.ok (), ⟨d, 0 + 4⟩)) = _
  rw [if_pos (show decodeLE ((d.drop (0 + 4)).take 2) > CURRENT_VERSION from hv)]

lemma CheckVersion_ok (d : List ℕ) (h6 : 6 ≤ d.length)
    (hv : decodeLE ((d.drop 4).take 2) ≤ CURRENT_VERSION) :
    CheckVersion ⟨d, 0 + 4⟩ = (.ok (), ⟨d, 0 + 4⟩) := by
  unfold CheckVersion
  rw [if_neg (show ¬((⟨d, 0 + 4⟩ : BinaryReader).pos + 2 > d.length) by
    show ¬(0 + 4 + 2 > d.length); omega)]
  show (if decodeLE ((d.drop (0 + 4)).take 2) > CURRENT_VERSION then
      ((.error (.runtimeError "Incompatible save version") : Except SerError Unit),
        (⟨d, 0 + 4⟩ : BinaryReader))
    else (.ok (), ⟨d, 0 + 4⟩)) = _
  rw [if_neg (show ¬(decodeLE ((d.drop (0 + 4)).take 2) > CURRENT_VERSION) by
    show ¬(decodeLE ((d.drop 4).take 2) > CURRENT_VERSION); omega)]

lemma Deserialize_invalid_magic (d : List ℕ) (h4 : 4 ≤ d.length)
    (hm : decodeLE (d.take 4) ≠ SERIALIZATION_MAGIC) :
    Deserialize d = .error (.runtimeError "Invalid file format") := by
  unfold Deserialize
  rw [ValidateMagic_bad d h4 hm]

lemma Deserialize_ok_magic (d : List ℕ) (h4 : 4 ≤ d.length)
    (hm : decodeLE (d.take 4) = SERIALIZATION_MAGIC) :
    Deserialize d =
      (match CheckVersion ⟨d, 0 + 4⟩ with
        | (.error e, _) => .error e
        | (.ok _, r2) =>
          match GameSaveData.deserialize r2 with
          | .ok (v, _) => .ok v
          | .error e => .error e) := by
  unfold Deserialize
  rw [ValidateMagic_ok d h4 hm]

/-- C4: with at least 4 bytes and a first word that does not decode
(little-endian) to `0x45564F53`, envelope reading fails with the
format-mismatch error — in particular after changing any one byte of the
magic of a buffer produced by the envelope writer; with valid magic and a
version field greater than `CURRENT_VERSION` it fails with the
version-incompatible error regardless of the rest of the buffer; with a
version at most `CURRENT_VERSION` the gate never rejects and decoding
continues with the single current payload decoder (no version
branching). -/
theorem C4_magic_version_gate :
    (∀ d : List ℕ, 4 ≤ d.length → decodeLE (d.take 4) ≠ SERIALIZATION_MAGIC →
      Deserialize d = .error (.runtimeError "Invalid file format")) ∧
    (∀ (dbl flt : ℕ → ℕ) (R : GameSaveData ℕ ℕ) (i b : ℕ), i < 4 → b < 256 →
      b ≠ (Serialize dbl flt R).getD i 0 →
      Deserialize ((Serialize dbl flt R).set i b) =
        .error (.runtimeError "Invalid file format")) ∧
    (∀ d : List ℕ, decodeLE (d.take 4) = SERIALIZATION_MAGIC → 6 ≤ d.length →
      CURRENT_VERSION < decodeLE ((d.drop 4).take 2) →
      Deserialize d = .error (.runtimeError "Incompatible save version")) ∧
    (∀ d : List ℕ, decodeLE (d.take 4) = SERIALIZATION_MAGIC → 6 ≤ d.length →
      decodeLE ((d.drop 4).take 2) ≤ CURRENT_VERSION →
      Deserialize d =
        (match GameSaveData.deserialize ⟨d, 0 + 4⟩ with
          | .ok (v, _) => .ok v
          | .error e => .error e)) := by
  refine ⟨?_, ?_, ?_, ?_⟩
  · intro d h4 hm
    exact Deserialize_invalid_magic d h4 hm
  · intro dbl flt R i b hi hb hne
    obtain ⟨t, ht⟩ := Serialize_header dbl flt R
    rw [ht] at hne ⊢
    rw [List.set_append, if_pos (by simp; omega)]
    rw [List.getD_append _ _ _ _ (by simp; omega)] at hne
    apply Deserialize_invalid_magic
    · simp
      omega
    · rw [List.take_append_of_le_length (by simp)]
      interval_cases i
      · simp_all [decodeLE, SERIALIZATION_MAGIC]
      · simp_all [decodeLE, SERIALIZATION_MAGIC]
        omega
      · simp_all [decodeLE, SERIALIZATION_MAGIC]
        omega
      · simp_all [decodeLE, SERIALIZATION_MAGIC]
        omega
  · intro d hm h6 hv
    rw [Deserialize_ok_magic d (by omega) hm, CheckVersion_newer d h6 hv]
  · intro d hm h6 hv
    rw [Deserialize_ok_magic d (by omega) hm, CheckVersion_ok d h6 hv]

/-- C5: one step with no external forcing does not increase the spread of
temperatures — the post-step maximum minus minimum is at most the
pre-step maximum minus minimum. -/
theorem C5_diffusion_contraction {F : Type} [LinearOrderedField F] (g : Grid F)
    (t : ℕ) (hw1 : 0 < g.width) (hw2 : g.width < 2 ^ 31)
    (hh1 : 0 < g.height) (hh2 : g.height < 2 ^ 31)
    (H : (gridIndices g).Nonempty) (H2 : (gridIndices (update g t)).Nonempty) :
    maxTemp (update g t) H2 - minTemp (update g t) H2 ≤
      maxTemp g H - minTemp g H := by
  have hbound : ∀ a b, a < g.width → b < g.height →
      minTemp g H ≤ (g.cells b a).temperature ∧
        (g.cells b a).temperature ≤ maxTemp g H := by
    intro a b ha hb
    have hmem : ((b, a) : ℕ × ℕ) ∈ gridIndices g := by
      simp [gridIndices, Finset.mem_product, ha, hb]
    unfold minTemp maxTemp
    exact ⟨Finset.inf'_le (fun p => (g.cells p.1 p.2).temperature) hmem,
      Finset.le_sup' (fun p => (g.cells p.1 p.2).temperature) hmem⟩
  have hup : ∀ p ∈ gridIndices (update g t),
      minTemp g H ≤ ((update g t).cells p.1 p.2).temperature ∧
        ((update g t).cells p.1 p.2).temperature ≤ maxTemp g H := by
    intro p hp
    have hg : gridIndices (update g t) = gridIndices g := rfl
    rw [hg] at hp
    simp only [gridIndices, Finset.mem_product, Finset.mem_range] at hp
    exact update_cell_temp_bounds g t hw2 hh2 hp.2 hp.1 hbound
  have hmax : maxTemp (update g t) H2 ≤ maxTemp g H := by
    unfold maxTemp
    exact Finset.sup'_le H2 _ fun p hp => (hup p hp).2
  have hmin : minTemp g H ≤ minTemp (update g t) H2 := by
    unfold minTemp
    exact Finset.le_inf' H2 _ fun p hp => (hup p hp).1
  linarith

/-- Witness for C5 on the concrete grid `exGrid` with tick `1`. -/
theorem C5_diffusion_contraction_witness :
    0 < exGrid.width ∧ exGrid.width < 2 ^ 31 ∧
    0 < exGrid.height ∧ exGrid.height < 2 ^ 31 ∧
    maxTemp (update exGrid 1) ⟨(0, 0), by decide⟩ -
        minTemp (update exGrid 1) ⟨(0, 0), by decide⟩ ≤
      maxTemp exGrid ⟨(0, 0), by decide⟩ - minTemp exGrid ⟨(0, 0), by decide⟩ :=
  ⟨by decide, by decide, by decide, by decide,
    C5_diffusion_contraction exGrid 1 (by decide) (by decide) (by decide) (by decide) _ _⟩

/-- Witness for C4: a zero magic is rejected; flipping the first magic
byte of a serialized record is rejected; version `2` on a valid magic is
rejected; version `1` passes the gate and hands the rest of the buffer to
the payload decoder. -/
theorem C4_magic_version_gate_witness :
    Deserialize [0, 0, 0, 0] = .error (.runtimeError "Invalid file format") ∧
    Deserialize ((Serialize id id exRecord).set 0 0) =
      .error (.runtimeError "Invalid file format") ∧
    Deserialize [83, 79, 86, 69, 2, 0] =
      .error (.runtimeError "Incompatible save version") ∧
    Deserialize [83, 79, 86, 69, 1, 0] =
      (match GameSaveData.deserialize ⟨([83, 79, 86, 69, 1, 0] : List ℕ), 0 + 4⟩ with
        | .ok (v, _) => .ok v
        | .error e => .error e) :=
  ⟨C4_magic_version_gate.1 [0, 0, 0, 0] (by decide) (by decide),
    C4_magic_version_gate.2.1 id id exRecord 0 0 (by decide) (by decide) (by decide),
    C4_magic_version_gate.2.2.1 [83, 79, 86, 69, 2, 0] (by decide) (by decide) (by decide),
    C4_magic_version_gate.2.2.2 [83, 79, 86, 69, 1, 0] (by decide) (by decide) (by decide)⟩

/-! ## Lemmas about the save coordinator's flattening -/

lemma rowMajor_length {F : Type} (f : ℕ → ℕ → F) (w : ℕ) :
    ∀ h : ℕ,
      ((List.range h).flatMap fun y => (List.range w).map fun x => f x y).length = h * w := by
  intro h
  induction h with
  | zero => simp
  | succ k ih =>
    rw [List.range_succ, List.flatMap_append, List.length_append, ih]
    simp [Nat.succ_mul]

lemma rowMajor_getD {F : Type} [LinearOrderedField F] (f : ℕ → ℕ → F) (w : ℕ) :
    ∀ (h x y : ℕ), x < w → y < h →
      ((List.range h).flatMap fun y0 => (List.range w).map fun x0 => f x0 y0).getD
        (y * w + x) 0 = f x y := by
  intro h
  induction h with
  | zero => intro x y hx hy; exact absurd hy (Nat.not_lt_zero y)
  | succ k ih =>
    intro x y hx hy
    rw [List.range_succ, List.flatMap_append]
    by_cases hyk : y < k
    · have h2 : (y + 1) * w ≤ k * w := Nat.mul_le_mul_right w (Nat.succ_le_of_lt hyk)
      have h3 : (y + 1) * w = y * w + w := Nat.succ_mul y w
      rw [List.getD_append _ _ _ _ (by rw [rowMajor_length f w k]; omega)]
      exact ih x y hx hyk
    · have hyk2 : y = k := by omega
      subst hyk2
      have hlen := rowMajor_length f w y
      rw [List.getD_append_right _ _ _ _ (by rw [hlen]; omega)]
      rw [hlen]
      have hidx : y * w + x - y * w = x := by omega
      rw [hidx]
      simp only [List.flatMap_cons, List.flatMap_nil, List.append_nil]
      rw [List.getD_eq_getElem _ _ (by simp [hx])]
      simp

lemma GetTemperatureData_length {F : Type} [LinearOrderedField F] (g : Grid F) :
    (GetTemperatureData g).length = g.height * g.width :=
  rowMajor_length (fun x y => getTemperature g x y) g.width g.height

lemma GetTemperatureData_getD {F : Type} [LinearOrderedField F] (g : Grid F)
    (hw2 : g.width < 2 ^ 31) (hh2 : g.height < 2 ^ 31) {x y : ℕ}
    (hx : x < g.width) (hy : y < g.height) :
    (GetTemperatureData g).getD (y * g.width + x) 0 = (g.cells y x).temperature := by
  have h := rowMajor_getD (fun x0 y0 => getTemperature g x0 y0) g.width g.height x y hx hy
  have hget : getTemperature g x y = (g.cells y x).temperature := by
    unfold getTemperature
    rw [if_pos ((isValidPosition_toInt32_iff g hw2 hh2 x y (by omega) (by omega)).mpr
      ⟨hx, hy⟩)]
  rw [← hget]
  exact h

/-- C8: `SaveGame` returns the envelope serialization of a record whose
save name is the given name, whose record-level version is
`CURRENT_VERSION`, whose world dimensions and ambient temperature are
copied from the grid, whose temperatures are the grid's temperatures
flattened row-major (`y` outer, `x` inner, so length `width * height` and
entry `y * width + x` is cell `(x, y)`), and whose creature list is
empty; the wall-clock timestamp is the only non-input datum and is a
parameter of the model. -/
theorem C8_SaveGame_record {F : Type} [LinearOrderedField F] (dbl flt : F → ℕ)
    (saveName : List ℕ) (g : Grid F) (simulationTime : F) (timestamp : ℕ)
    (hw1 : 0 < g.width) (hw2 : g.width < 2 ^ 31)
    (hh1 : 0 < g.height) (hh2 : g.height < 2 ^ 31) :
    ∃ R : GameSaveData F F,
      SaveGame dbl flt saveName g simulationTime timestamp = Serialize dbl flt R ∧
      R.saveName = saveName ∧ R.timestamp = timestamp ∧ R.version = CURRENT_VERSION ∧
      R.width = g.width ∧ R.height = g.height ∧
      R.simulationTime = simulationTime ∧
      R.ambientTemperature = g.ambientTemperature ∧
      R.temperatures.length = g.width * g.height ∧
      (∀ x y : ℕ, x < g.width → y < g.height →
        R.temperatures.getD (y * g.width + x) 0 = (g.cells y x).temperature) ∧
      R.creatures = [] := by
  refine ⟨SaveGameRecord saveName g simulationTime timestamp, rfl, rfl, rfl, rfl, rfl,
    rfl, rfl, rfl, ?_, ?_, rfl⟩
  · show (GetTemperatureData g).length = g.width * g.height
    rw [GetTemperatureData_length, Nat.mul_comm]
  · intro x y hx hy
    exact GetTemperatureData_getD g hw2 hh2 hx hy

/-- Witness for C8 on the concrete grid `exGrid` with name `[65]`,
simulation time `5` and timestamp `7`. -/
theorem C8_SaveGame_record_witness :
    0 < exGrid.width ∧ exGrid.width < 2 ^ 31 ∧
    0 < exGrid.height ∧ exGrid.height < 2 ^ 31 ∧
    (∃ R : GameSaveData ℚ ℚ,
      SaveGame (fun _ => 0) (fun _ => 0) [65] exGrid 5 7 =
        Serialize (fun _ => 0) (fun _ => 0) R ∧
      R.saveName = [65] ∧ R.timestamp = 7 ∧ R.version = CURRENT_VERSION ∧
      R.width = exGrid.width ∧ R.height = exGrid.height ∧
      R.simulationTime = 5 ∧
      R.ambientTemperature = exGrid.ambientTemperature ∧
      R.temperatures.length = exGrid.width * exGrid.height ∧
      (∀ x y : ℕ, x < exGrid.width → y < exGrid.height →
        R.temperatures.getD (y * exGrid.width + x) 0 = (exGrid.cells y x).temperature) ∧
      R.creatures = []) :=
  ⟨by decide, by decide, by decide, by decide,
    C8_SaveGame_record (fun _ => 0) (fun _ => 0) [65] exGrid 5 7 (by decide) (by decide)
      (by decide) (by decide)⟩

/-- C9 (amended): after construction with a nonnegative ambient
temperature, every cell has
`temperature = nextTemperature = ambient * (1 - dist * 0.5)` where `dist`
is the Euclidean distance from the grid center divided by the
center-to-corner distance, `lastUpdate = 0`, `0 ≤ dist ≤ 1`, and the
temperature lies in `[0.5 * ambient, ambient]`.  (The claim as stated for
every ambient temperature fails for negative ambient; see the
counterexample.) -/
theorem C9_initGrid_radial_gradient (width height : ℕ) (ambientTemp : ℝ)
    (hw : 0 < width) (hh : 0 < height) (ha : 0 ≤ ambientTemp)
    (x y : ℕ) (hx : x < width) (hy : y < height) :
    ((initGrid width height ambientTemp).cells y x).temperature =
        ambientTemp * (1 - normDist width height x y * 0.5) ∧
      ((initGrid width height ambientTemp).cells y x).nextTemperature =
        ((initGrid width height ambientTemp).cells y x).temperature ∧
      ((initGrid width height ambientTemp).cells y x).lastUpdate = 0 ∧
      0 ≤ normDist width height x y ∧ normDist width height x y ≤ 1 ∧
      0.5 * ambientTemp ≤ ((initGrid width height ambientTemp).cells y x).temperature ∧
      ((initGrid width height ambientTemp).cells y x).temperature ≤ ambientTemp := by
  have hw1 : (1 : ℝ) ≤ width := by exact_mod_cast hw
  have hh1 : (1 : ℝ) ≤ height := by exact_mod_cast hh
  have hxw : (x : ℝ) < width := by exact_mod_cast hx
  have hyh : (y : ℝ) < height := by exact_mod_cast hy
  have hx0 : (0 : ℝ) ≤ x := Nat.cast_nonneg x
  have hy0 : (0 : ℝ) ≤ y := Nat.cast_nonneg y
  have hcx : (0 : ℝ) < (width : ℝ) / 2 := by linarith
  have hcy : (0 : ℝ) < (height : ℝ) / 2 := by linarith
  have hmax : (0 : ℝ) < Real.sqrt ((width : ℝ) / 2 * ((width : ℝ) / 2) +
      (height : ℝ) / 2 * ((height : ℝ) / 2)) :=
    Real.sqrt_pos.mpr (by nlinarith)
  have hdist : normDist width height x y =
      Real.sqrt (((x : ℝ) - (width : ℝ) / 2) * ((x : ℝ) - (width : ℝ) / 2) +
          ((y : ℝ) - (height : ℝ) / 2) * ((y : ℝ) - (height : ℝ) / 2)) /
        Real.sqrt ((width : ℝ) / 2 * ((width : ℝ) / 2) +
          (height : ℝ) / 2 * ((height : ℝ) / 2)) := rfl
  have hd0 : 0 ≤ normDist width height x y := by
    rw [hdist]
    exact div_nonneg (Real.sqrt_nonneg _) (le_of_lt hmax)
  have hd1 : normDist width height x y ≤ 1 := by
    rw [hdist, div_le_one hmax]
    apply Real.sqrt_le_sqrt
    have h2x : (x : ℝ) ≤ 2 * ((width : ℝ) / 2) := by linarith
    have h2y : (y : ℝ) ≤ 2 * ((height : ℝ) / 2) := by linarith
    nlinarith [mul_nonneg hx0 (sub_nonneg.mpr h2x), mul_nonneg hy0 (sub_nonneg.mpr h2y)]
  refine ⟨rfl, rfl, rfl, hd0, hd1, ?_, ?_⟩
  · show 0.5 * ambientTemp ≤ ambientTemp * (1 - normDist width height x y * 0.5)
    nlinarith [mul_nonneg ha (sub_nonneg.mpr hd1)]
  · show ambientTemp * (1 - normDist width height x y * 0.5) ≤ ambientTemp
    nlinarith [mul_nonneg ha hd0]

/-- Witness for the amended C9: the 1-by-1 grid with ambient temperature
`0`, whose single cell sits at normalized distance `1` from the center. -/
theorem C9_initGrid_radial_gradient_witness :
    (0 < 1) ∧ ((0 : ℝ) ≤ 0) ∧
    (((initGrid 1 1 0).cells 0 0).temperature = 0 * (1 - normDist 1 1 0 0 * 0.5) ∧
      ((initGrid 1 1 0).cells 0 0).nextTemperature =
        ((initGrid 1 1 0).cells 0 0).temperature ∧
      ((initGrid 1 1 0).cells 0 0).lastUpdate = 0 ∧
      0 ≤ normDist 1 1 0 0 ∧ normDist 1 1 0 0 ≤ 1 ∧
      0.5 * (0 : ℝ) ≤ ((initGrid 1 1 0).cells 0 0).temperature ∧
      ((initGrid 1 1 0).cells 0 0).temperature ≤ (0 : ℝ)) :=
  ⟨by decide, le_refl 0,
    C9_initGrid_radial_gradient 1 1 0 (by decide) (by decide) (le_refl 0) 0 0
      (by decide) (by decide)⟩

/-- C9 counterexample: with `ambientTemperature = -1` on a 1-by-1 grid the
single cell's temperature is `-(1/2)`, which does NOT lie in the claimed
interval `[0.5 * ambient, ambient] = [-0.5, -1]` (the upper bound
`temperature ≤ ambient` fails), refuting the claim for arbitrary
(negative) ambient temperatures. -/
theorem C9_initGrid_bound_counterexample :
    ((initGrid 1 1 (-1)).cells 0 0).temperature = -(1 / 2) ∧
    ¬(0.5 * (-1 : ℝ) ≤ ((initGrid 1 1 (-1)).cells 0 0).temperature ∧
      ((initGrid 1 1 (-1)).cells 0 0).temperature ≤ (-1 : ℝ)) := by
  have hhalf : (0 : ℝ) < Real.sqrt (1 / 2) := Real.sqrt_pos.mpr (by norm_num)
  have htemp : ((initGrid 1 1 (-1)).cells 0 0).temperature = -(1 / 2) := by
    show (-1 : ℝ) * (1 - Real.sqrt ((((0 : ℕ) : ℝ) - ((1 : ℕ) : ℝ) / 2) *
        (((0 : ℕ) : ℝ) - ((1 : ℕ) : ℝ) / 2) + (((0 : ℕ) : ℝ) - ((1 : ℕ) : ℝ) / 2) *
        (((0 : ℕ) : ℝ) - ((1 : ℕ) : ℝ) / 2)) /
      Real.sqrt (((1 : ℕ) : ℝ) / 2 * (((1 : ℕ) : ℝ) / 2) +
        ((1 : ℕ) : ℝ) / 2 * (((1 : ℕ) : ℝ) / 2)) * 0.5) = -(1 / 2)
    have harg : (((0 : ℕ) : ℝ) - ((1 : ℕ) : ℝ) / 2) * (((0 : ℕ) : ℝ) - ((1 : ℕ) : ℝ) / 2) +
        (((0 : ℕ) : ℝ) - ((1 : ℕ) : ℝ) / 2) * (((0 : ℕ) : ℝ) - ((1 : ℕ) : ℝ) / 2) =
        (1 : ℝ) / 2 := by
      norm_num
    have harg2 : ((1 : ℕ) : ℝ) / 2 * (((1 : ℕ) : ℝ) / 2) +
        ((1 : ℕ) : ℝ) / 2 * (((1 : ℕ) : ℝ) / 2) = (1 : ℝ) / 2 := by
      norm_num
    rw [harg, harg2, div_self (ne_of_gt hhalf)]
    norm_num
  refine ⟨htemp, ?_⟩
  rw [htemp]
  intro h
  have := h.2
  norm_num at this

end EvolutionSim
